import Mathlib

/-!
Shallow embedding of `records/fillers/filler.py` (the `AnnotatedFiller`
staged fill pipeline) and proofs of the specification claims about it.

Values handled by a filler are drawn from an arbitrary type `V`.  Python
exceptions are modelled by the inductive `PyExc`; a Python callable that
may raise is modelled as a function into `Except PyExc V`.  The generator
`fill` is modelled as a function returning the full trace of one run: the
list of intents yielded before termination, paired with the final result
(the returned value or the propagated exception).
-/

namespace Records

/-- Model of the Python exceptions raised by the filler code:
`NotImplementedError` (unconfigured style), `TypeError` (type-check
mismatch, coercer failure, or non-callable token, with its message),
`ValueError` (hollow-with-coercers bind failure), and any other
exception class a user callback may raise. -/
inductive PyExc where
  | notImplemented : PyExc
  | typeError (msg : String) : PyExc
  | valueError (msg : String) : PyExc
  | other (msg : String) : PyExc
deriving DecidableEq, Repr

/-- True exactly on the `TypeError` model, the exception class caught by
the `except TypeError` clause of the coercer loop. -/
def isTypeError : PyExc → Bool
  | PyExc.typeError _ => true
  | _ => false

/-- Embeds `class TypeCheckStyle(Enum)` from filler.py. -/
inductive TypeCheckStyle where
  | default : TypeCheckStyle
  | hollow : TypeCheckStyle
  | check : TypeCheckStyle
  | check_strict : TypeCheckStyle
deriving DecidableEq, Repr

/-- Embeds `class FillingIntent(IntEnum)` from filler.py. -/
inductive FillingIntent where
  | attempt_no_coerce : FillingIntent
  | attempt_coerce : FillingIntent
  | attempt_hollow : FillingIntent
  | attempt_validation : FillingIntent
deriving DecidableEq, Repr

/-- Model of a `CoercionToken` instance as the filler code observes it:
`apply` only asks whether the token is callable (and if so calls it), and
`TypeError(token)` only needs a printable identity, kept in `name`.
`fn = some c` models a callable token, `fn = none` a non-callable one. -/
structure CoercionTok (V : Type) where
  fn : Option (V → Except PyExc V)
  name : String

/-- Model of a `ValidationToken` instance, observed the same way as a
coercion token (callable or not, plus a printable identity). -/
structure ValidationTok (V : Type) where
  fn : Option (V → Except PyExc V)
  name : String

/-- Model of one configuration token as dispatched by the `isinstance`
chain of `AnnotatedFiller.apply`: a `TypeCheckStyle` member, a
`CoercionToken`, a `ValidationToken`, or anything else (which `apply`
silently ignores, since its if/elif chain has no else branch). -/
inductive Token (V : Type) where
  | style (s : TypeCheckStyle) : Token V
  | coercion (t : CoercionTok V) : Token V
  | validation (t : ValidationTok V) : Token V
  | unknown (name : String) : Token V

/-- Embeds the state of an `AnnotatedFiller` instance.  The fields
`type_checking_style`, `origin`, `args`, `coercers`, `validators` come
from `__init__`; the abstract methods `type_check`, `type_check_strict`
of the concrete subclass are fields here, and `rtype` models the runtime
type introspection `type(arg)` used in the mismatch error message. -/
structure AnnotatedFiller (V : Type) where
  type_checking_style : TypeCheckStyle
  origin : String
  args : List (Token V)
  coercers : List (V → Except PyExc V)
  validators : List (V → Except PyExc V)
  type_check : V → Bool
  type_check_strict : V → Bool
  rtype : V → String

variable {V : Type}

/-- Embeds the coercer loop of `AnnotatedFiller.fill`:
`for i, coercer in enumerate(self.coercers): try: arg = coercer(arg)
except TypeError: if i == len(self.coercers) - 1: raise  else: break`.
A `TypeError` from a non-last coercer is swallowed and the scan moves on
with the original `arg` (the assignment never happened); a `TypeError`
from the last coercer is re-raised; any other exception propagates at
once (no handler); a normal return breaks out with the new value. -/
def coerceScan : List (V → Except PyExc V) → V → Except PyExc V
  | [], arg => Except.ok arg
  | c :: rest, arg =>
      match c arg with
      | Except.ok v => Except.ok v
      | Except.error e =>
          if isTypeError e then
            match rest with
            | [] => Except.error e
            | r :: rs => coerceScan (r :: rs) arg
          else Except.error e

/-- Embeds the validator loop of `AnnotatedFiller.fill`:
`for validator in self.validators: arg = validator(arg)`.  Each
validator transforms the running value; a raised exception propagates
immediately, so later validators never run. -/
def runValidators : List (V → Except PyExc V) → V → Except PyExc V
  | [], arg => Except.ok arg
  | v :: rest, arg =>
      match v arg with
      | Except.ok arg2 => runValidators rest arg2
      | Except.error e => Except.error e

/-- Embeds the branch of `AnnotatedFiller.fill` taken after a type check
(styles `check` and `check_strict`), given the boolean `is_type` the
selected predicate produced: on success go straight to validation; on
failure yield `attempt_coerce`, raise the mismatch `TypeError` when no
coercers are configured, and otherwise run the coercer scan. -/
def fillChecked (f : AnnotatedFiller V) (arg : V) (is_type : Bool) :
    List FillingIntent × Except PyExc V :=
  if is_type then
    ([FillingIntent.attempt_no_coerce, FillingIntent.attempt_validation],
     runValidators f.validators arg)
  else
    match f.coercers with
    | [] =>
        ([FillingIntent.attempt_no_coerce, FillingIntent.attempt_coerce],
         Except.error (PyExc.typeError
           ("failed type checking for value of type " ++ f.rtype arg)))
    | c :: rest =>
        match coerceScan (c :: rest) arg with
        | Except.ok v =>
            ([FillingIntent.attempt_no_coerce, FillingIntent.attempt_coerce,
              FillingIntent.attempt_validation],
             runValidators f.validators v)
        | Except.error e =>
            ([FillingIntent.attempt_no_coerce, FillingIntent.attempt_coerce],
             Except.error e)

/-- Embeds `AnnotatedFiller.fill` as the trace of one complete run of the
generator: the list of intents it yields, in order, paired with the
returned value or the propagated exception.  Style `default` raises
`NotImplementedError` before the first yield; style `hollow` yields
`attempt_hollow` and goes straight to validation; styles `check` and
`check_strict` yield `attempt_no_coerce` and run the corresponding
type-check predicate, then continue as in `fillChecked`. -/
def fill (f : AnnotatedFiller V) (arg : V) :
    List FillingIntent × Except PyExc V :=
  match f.type_checking_style with
  | TypeCheckStyle.default => ([], Except.error PyExc.notImplemented)
  | TypeCheckStyle.hollow =>
      ([FillingIntent.attempt_hollow, FillingIntent.attempt_validation],
       runValidators f.validators arg)
  | TypeCheckStyle.check => fillChecked f arg (f.type_check arg)
  | TypeCheckStyle.check_strict => fillChecked f arg (f.type_check_strict arg)

/-- Embeds `AnnotatedFiller.get_coercer`: return the token itself when it
is callable, otherwise raise `TypeError(token)`. -/
def get_coercer (t : CoercionTok V) : Except PyExc (V → Except PyExc V) :=
  match t.fn with
  | some c => Except.ok c
  | none => Except.error (PyExc.typeError t.name)

/-- Embeds `AnnotatedFiller.get_validator`: return the token itself when
it is callable, otherwise raise `TypeError(token)`. -/
def get_validator (t : ValidationTok V) : Except PyExc (V → Except PyExc V) :=
  match t.fn with
  | some v => Except.ok v
  | none => Except.error (PyExc.typeError t.name)

/-- Embeds `AnnotatedFiller.apply`: a style token overwrites
`type_checking_style`; a coercion token is resolved by `get_coercer` and
appended to `coercers`; a validation token is resolved by
`get_validator` and appended to `validators`; any other token is
silently ignored.  Resolution failures propagate as exceptions. -/
def apply (f : AnnotatedFiller V) : Token V → Except PyExc (AnnotatedFiller V)
  | Token.style s => Except.ok { f with type_checking_style := s }
  | Token.coercion t =>
      match get_coercer t with
      | Except.ok c => Except.ok { f with coercers := f.coercers ++ [c] }
      | Except.error e => Except.error e
  | Token.validation t =>
      match get_validator t with
      | Except.ok v => Except.ok { f with validators := f.validators ++ [v] }
      | Except.error e => Except.error e
  | Token.unknown _ => Except.ok f

/-- Embeds the token loop of `AnnotatedFiller.bind`:
`for arg in self.args: self.apply(arg)`, threading the filler state and
propagating the first resolution failure. -/
def applyAll (f : AnnotatedFiller V) : List (Token V) → Except PyExc (AnnotatedFiller V)
  | [] => Except.ok f
  | t :: ts =>
      match apply f t with
      | Except.ok f2 => applyAll f2 ts
      | Except.error e => Except.error e

/-- Embeds `AnnotatedFiller.bind`: apply every token of `self.args`, then
raise `NotImplementedError` if the style is still `default`, raise
`ValueError` if the style is `hollow` while coercers are configured, and
otherwise succeed with the configured filler. -/
def bind (f : AnnotatedFiller V) : Except PyExc (AnnotatedFiller V) :=
  match applyAll f f.args with
  | Except.error e => Except.error e
  | Except.ok f2 =>
      if f2.type_checking_style = TypeCheckStyle.default then
        Except.error PyExc.notImplemented
      else if f2.type_checking_style = TypeCheckStyle.hollow ∧ f2.coercers.isEmpty = false then
        Except.error (PyExc.valueError "cannot have hollow type checking with coercers")
      else Except.ok f2

/-- Builder for concrete fillers over `Int`, used to evaluate the claims
on explicit inputs. -/
def exFiller (style : TypeCheckStyle) (tc tcs : Int → Bool)
    (cs vs : List (Int → Except PyExc Int)) : AnnotatedFiller Int :=
  { type_checking_style := style
    origin := "int"
    args := []
    coercers := cs
    validators := vs
    type_check := tc
    type_check_strict := tcs
    rtype := fun _ => "list" }

/-- Concrete type-check predicate that rejects everything. -/
def tcFalse : Int → Bool := fun _ => false

/-- Concrete type-check predicate that accepts everything. -/
def tcTrue : Int → Bool := fun _ => true

/-- Concrete coercer that succeeds, doubling its input. -/
def coOkDouble : Int → Except PyExc Int := fun v => Except.ok (2 * v)

/-- Concrete coercer that raises a `TypeError`. -/
def coTypeErr1 : Int → Except PyExc Int :=
  fun _ => Except.error (PyExc.typeError "c1 cannot convert")

/-- Concrete coercer that raises a different `TypeError`. -/
def coTypeErr2 : Int → Except PyExc Int :=
  fun _ => Except.error (PyExc.typeError "c2 cannot convert")

/-- Concrete coercer that raises a non-`TypeError` exception. -/
def coValueErr : Int → Except PyExc Int :=
  fun _ => Except.error (PyExc.valueError "boom")

/-- Concrete validator that succeeds, adding one to its input. -/
def vaAddOne : Int → Except PyExc Int := fun v => Except.ok (v + 1)

/-- C8: for every filler whose `type_checking_style` is still `default`
at fill time, `fill` fails immediately with the configuration error
(`NotImplementedError`), yielding no intent at all, so no type check,
coercion or validation runs. -/
theorem fill_default_fails_before_any_intent (f : AnnotatedFiller V) (arg : V)
    (h : f.type_checking_style = TypeCheckStyle.default) :
    fill f arg = ([], Except.error PyExc.notImplemented) := by
  unfold fill
  rw [h]

/-- Witness for C8: a concrete unconfigured filler over `Int` fails at
once with the configuration error and an empty intent trace. -/
theorem fill_default_fails_before_any_intent_witness :
    fill
      { type_checking_style := TypeCheckStyle.default
        origin := "int"
        args := []
        coercers := []
        validators := []
        type_check := fun _ => true
        type_check_strict := fun _ => true
        rtype := fun _ => "int" } (0 : Int)
      = ([], Except.error PyExc.notImplemented) :=
  fill_default_fails_before_any_intent _ 0 rfl

/-- C2 counterexample: a hollow filler with the validator `vaAddOne`
maps input `0` to `1`, so `fill` on a hollow filler does not in general
return the input unchanged (the validators still run). -/
theorem fill_hollow_unchanged_counterexample :
    (fill (exFiller TypeCheckStyle.hollow tcTrue tcTrue [] [vaAddOne]) 0).2
      = Except.ok (1 : Int)
    ∧ (1 : Int) ≠ (0 : Int) :=
  ⟨rfl, by decide⟩

/-- C2 (amended): for every filler with style `hollow` and every input,
`fill` emits exactly `attempt_hollow` followed by `attempt_validation`,
performs no type check and no coercion, and passes the input unchanged
into the validation stage; when the validator list is empty it returns
the input unchanged. -/
theorem fill_hollow_passes_value_through (f : AnnotatedFiller V) (arg : V)
    (h : f.type_checking_style = TypeCheckStyle.hollow) :
    fill f arg = ([FillingIntent.attempt_hollow, FillingIntent.attempt_validation],
        runValidators f.validators arg)
    ∧ (f.validators = [] →
        fill f arg = ([FillingIntent.attempt_hollow, FillingIntent.attempt_validation],
          Except.ok arg)) := by
  unfold fill
  rw [h]
  exact ⟨rfl, fun hv => by rw [hv]; rfl⟩

/-- Witness for C2 (amended): a concrete hollow filler with no validators
returns its input unchanged after yielding the two intents. -/
theorem fill_hollow_passes_value_through_witness :
    fill (exFiller TypeCheckStyle.hollow tcTrue tcTrue [] []) 7
      = ([FillingIntent.attempt_hollow, FillingIntent.attempt_validation],
         Except.ok (7 : Int)) :=
  (fill_hollow_passes_value_through (exFiller TypeCheckStyle.hollow tcTrue tcTrue [] []) 7
    rfl).2 rfl

/-- C4: for every filler with style `check` or `check_strict` whose
selected type check fails and whose coercer list is empty, `fill` raises
exactly the type-mismatch `TypeError` whose message carries the
offending value's runtime type; no coercer error can be involved since
no coercer exists or runs. -/
theorem fill_no_coercers_type_mismatch (f : AnnotatedFiller V) (arg : V)
    (hs : f.type_checking_style = TypeCheckStyle.check ∧ f.type_check arg = false
      ∨ f.type_checking_style = TypeCheckStyle.check_strict ∧ f.type_check_strict arg = false)
    (hc : f.coercers = []) :
    fill f arg = ([FillingIntent.attempt_no_coerce, FillingIntent.attempt_coerce],
      Except.error (PyExc.typeError
        ("failed type checking for value of type " ++ f.rtype arg))) := by
  rcases hs with ⟨h1, h2⟩ | ⟨h1, h2⟩ <;>
    simp [fill, fillChecked, h1, h2, hc]

/-- Witness for C4: a concrete check-style filler with no coercers and a
failing check raises the mismatch error naming the runtime type. -/
theorem fill_no_coercers_type_mismatch_witness :
    fill (exFiller TypeCheckStyle.check tcFalse tcFalse [] []) 5
      = ([FillingIntent.attempt_no_coerce, FillingIntent.attempt_coerce],
         Except.error (PyExc.typeError "failed type checking for value of type list")) :=
  fill_no_coercers_type_mismatch (exFiller TypeCheckStyle.check tcFalse tcFalse [] []) 5
    (Or.inl ⟨rfl, rfl⟩) rfl

/-- Helper: whenever the type check came back false, the checked branch
of fill yields the `attempt_coerce` intent, whatever the coercers do. -/
theorem fillChecked_false_has_coerce_intent (f : AnnotatedFiller V) (arg : V) :
    FillingIntent.attempt_coerce ∈ (fillChecked f arg false).1 := by
  unfold fillChecked
  cases hc : f.coercers with
  | nil => simp
  | cons c rest =>
      cases hs : coerceScan (c :: rest) arg with
      | ok v => simp [hs]
      | error e => simp [hs]

/-- C6: style `check_strict` selects `type_check_strict` and style
`check` selects `type_check`; when the selected predicate accepts, the
trace is exactly `attempt_no_coerce` then `attempt_validation` and the
original value goes to validation (no coerce intent, no coercer can
influence the result); when it rejects, `attempt_coerce` is emitted. -/
theorem fill_predicate_selection (f : AnnotatedFiller V) (arg : V) :
    (f.type_checking_style = TypeCheckStyle.check_strict → f.type_check_strict arg = true →
      fill f arg = ([FillingIntent.attempt_no_coerce, FillingIntent.attempt_validation],
        runValidators f.validators arg))
    ∧ (f.type_checking_style = TypeCheckStyle.check → f.type_check arg = true →
      fill f arg = ([FillingIntent.attempt_no_coerce, FillingIntent.attempt_validation],
        runValidators f.validators arg))
    ∧ (f.type_checking_style = TypeCheckStyle.check_strict → f.type_check_strict arg = false →
      FillingIntent.attempt_coerce ∈ (fill f arg).1)
    ∧ (f.type_checking_style = TypeCheckStyle.check → f.type_check arg = false →
      FillingIntent.attempt_coerce ∈ (fill f arg).1) := by
  refine ⟨fun h1 h2 => ?_, fun h1 h2 => ?_, fun h1 h2 => ?_, fun h1 h2 => ?_⟩ <;>
    simp only [fill, h1, h2]
  · simp [fillChecked]
  · simp [fillChecked]
  · exact fillChecked_false_has_coerce_intent f arg
  · exact fillChecked_false_has_coerce_intent f arg

/-- Witness for C6: a strict-style filler whose non-strict predicate
accepts but whose strict predicate rejects emits `attempt_coerce`,
showing the strict predicate is the one consulted. -/
theorem fill_predicate_selection_witness :
    FillingIntent.attempt_coerce ∈
      (fill (exFiller TypeCheckStyle.check_strict tcTrue tcFalse [] []) 4).1 :=
  (fill_predicate_selection (exFiller TypeCheckStyle.check_strict tcTrue tcFalse [] []) 4
    ).2.2.1 rfl rfl

/-- Helper: if every coercer before `c` raises a `TypeError` and `c`
returns normally, the scan stops at `c` with its value; the coercers
after `c` play no part in the result. -/
theorem coerceScan_first_ok (cs1 : List (V → Except PyExc V))
    (c : V → Except PyExc V) (cs2 : List (V → Except PyExc V)) (arg v : V)
    (hpre : ∀ c1 ∈ cs1, ∃ s1, c1 arg = Except.error (PyExc.typeError s1))
    (hc : c arg = Except.ok v) :
    coerceScan (cs1 ++ c :: cs2) arg = Except.ok v := by
  induction cs1 with
  | nil => simp [coerceScan, hc]
  | cons c1 cs1t ih =>
      obtain ⟨s1, hs1⟩ := hpre c1 (List.mem_cons_self _ _)
      have ih2 := ih (fun x hx => hpre x (List.mem_cons_of_mem _ hx))
      rw [List.cons_append]
      unfold coerceScan
      rw [hs1]
      simp only [isTypeError, if_true]
      cases h2 : cs1t ++ c :: cs2 with
      | nil => exact absurd h2 (by simp)
      | cons r rs => rw [h2] at ih2; exact ih2

/-- Helper: if every coercer before the last raises a `TypeError` and the
last raises the `TypeError` carrying `s`, the scan re-raises exactly that
last error. -/
theorem coerceScan_all_typeError (cs1 : List (V → Except PyExc V))
    (c : V → Except PyExc V) (arg : V) (s : String)
    (hpre : ∀ c1 ∈ cs1, ∃ s1, c1 arg = Except.error (PyExc.typeError s1))
    (hc : c arg = Except.error (PyExc.typeError s)) :
    coerceScan (cs1 ++ [c]) arg = Except.error (PyExc.typeError s) := by
  induction cs1 with
  | nil => simp [coerceScan, hc, isTypeError]
  | cons c1 cs1t ih =>
      obtain ⟨s1, hs1⟩ := hpre c1 (List.mem_cons_self _ _)
      have ih2 := ih (fun x hx => hpre x (List.mem_cons_of_mem _ hx))
      rw [List.cons_append]
      unfold coerceScan
      rw [hs1]
      simp only [isTypeError, if_true]
      cases h2 : cs1t ++ [c] with
      | nil => exact absurd h2 (by simp)
      | cons r rs => rw [h2] at ih2; exact ih2

/-- Helper: if every coercer before `c` raises a `TypeError` and `c`
raises an exception that is not a `TypeError`, the scan propagates that
exception at once, whatever coercers remain after `c`. -/
theorem coerceScan_abort (cs1 : List (V → Except PyExc V))
    (c : V → Except PyExc V) (cs2 : List (V → Except PyExc V)) (arg : V) (e : PyExc)
    (hpre : ∀ c1 ∈ cs1, ∃ s1, c1 arg = Except.error (PyExc.typeError s1))
    (hc : c arg = Except.error e) (hnot : isTypeError e = false) :
    coerceScan (cs1 ++ c :: cs2) arg = Except.error e := by
  induction cs1 with
  | nil => simp [coerceScan, hc, hnot]
  | cons c1 cs1t ih =>
      obtain ⟨s1, hs1⟩ := hpre c1 (List.mem_cons_self _ _)
      have ih2 := ih (fun x hx => hpre x (List.mem_cons_of_mem _ hx))
      rw [List.cons_append]
      unfold coerceScan
      rw [hs1]
      simp only [isTypeError, if_true]
      cases h2 : cs1t ++ c :: cs2 with
      | nil => exact absurd h2 (by simp)
      | cons r rs => rw [h2] at ih2; exact ih2

/-- Helper: with a failed type check and a non-empty coercer list, the
checked fill branch is the coercer scan followed, on success, by the
validation stage. -/
theorem fillChecked_false_nonempty (f : AnnotatedFiller V) (arg : V)
    (h : f.coercers ≠ []) :
    fillChecked f arg false =
      match coerceScan f.coercers arg with
      | Except.ok v =>
          ([FillingIntent.attempt_no_coerce, FillingIntent.attempt_coerce,
            FillingIntent.attempt_validation], runValidators f.validators v)
      | Except.error e =>
          ([FillingIntent.attempt_no_coerce, FillingIntent.attempt_coerce],
            Except.error e) := by
  cases hc : f.coercers with
  | nil => exact absurd hc h
  | cons c rest =>
      unfold fillChecked
      rw [hc]
      rfl

/-- Helper: a filler with style `check` or `check_strict` whose selected
predicate rejects the input runs the checked branch with a false check
outcome. -/
theorem fill_eq_fillChecked_false (f : AnnotatedFiller V) (arg : V)
    (hstyle : f.type_checking_style = TypeCheckStyle.check ∧ f.type_check arg = false
      ∨ f.type_checking_style = TypeCheckStyle.check_strict
        ∧ f.type_check_strict arg = false) :
    fill f arg = fillChecked f arg false := by
  rcases hstyle with ⟨h1, h2⟩ | ⟨h1, h2⟩ <;> simp [fill, h1, h2]

/-- C1: with style `check` or `check_strict`, a failing type check and a
non-empty coercer list, the coercers are scanned in declared order: if
the coercers before `c` all raise `TypeError` and `c` returns normally,
`c` supplies the new value and the coercers after `c` never influence
the run; if every coercer up to and including the last raises a
`TypeError`, the last one's error is the one propagated. -/
theorem fill_coercer_scan_order (f : AnnotatedFiller V) (arg v : V)
    (cs1 cs2 : List (V → Except PyExc V)) (c : V → Except PyExc V) (s : String)
    (hstyle : f.type_checking_style = TypeCheckStyle.check ∧ f.type_check arg = false
      ∨ f.type_checking_style = TypeCheckStyle.check_strict
        ∧ f.type_check_strict arg = false) :
    (f.coercers = cs1 ++ c :: cs2 →
      (∀ c1 ∈ cs1, ∃ s1, c1 arg = Except.error (PyExc.typeError s1)) →
      c arg = Except.ok v →
      fill f arg = ([FillingIntent.attempt_no_coerce, FillingIntent.attempt_coerce,
          FillingIntent.attempt_validation], runValidators f.validators v))
    ∧ (f.coercers = cs1 ++ [c] →
      (∀ c1 ∈ cs1, ∃ s1, c1 arg = Except.error (PyExc.typeError s1)) →
      c arg = Except.error (PyExc.typeError s) →
      fill f arg = ([FillingIntent.attempt_no_coerce, FillingIntent.attempt_coerce],
        Except.error (PyExc.typeError s))) := by
  have hfill := fill_eq_fillChecked_false f arg hstyle
  constructor
  · intro hco hpre hc
    have hne : f.coercers ≠ [] := by rw [hco]; simp
    have hscan := coerceScan_first_ok cs1 c cs2 arg v hpre hc
    rw [hfill, fillChecked_false_nonempty f arg hne, hco, hscan]
  · intro hco hpre hc
    have hne : f.coercers ≠ [] := by rw [hco]; simp
    have hscan := coerceScan_all_typeError cs1 c arg s hpre hc
    rw [hfill, fillChecked_false_nonempty f arg hne, hco, hscan]

/-- Witness for C1: with coercers raising, succeeding, raising, the
middle coercer supplies the value (its input doubled) and the run ends
successfully, the third coercer being ignored. -/
theorem fill_coercer_scan_order_witness :
    fill (exFiller TypeCheckStyle.check tcFalse tcFalse
        [coTypeErr1, coOkDouble, coTypeErr2] []) 3
      = ([FillingIntent.attempt_no_coerce, FillingIntent.attempt_coerce,
          FillingIntent.attempt_validation], Except.ok (6 : Int)) :=
  (fill_coercer_scan_order
      (exFiller TypeCheckStyle.check tcFalse tcFalse
        [coTypeErr1, coOkDouble, coTypeErr2] []) 3 6
      [coTypeErr1] [coTypeErr2] coOkDouble "unused"
      (Or.inl ⟨rfl, rfl⟩)).1 rfl
    (fun c1 hc1 => by
      rw [List.mem_singleton] at hc1
      subst hc1
      exact ⟨"c1 cannot convert", rfl⟩)
    rfl

/-- C10: during the coercer scan only a `TypeError` is a skippable
conversion failure; a coercer raising any other exception makes `fill`
abort at once with that exception, whatever coercers remain after it. -/
theorem fill_non_typeError_aborts_scan (f : AnnotatedFiller V) (arg : V)
    (cs1 cs2 : List (V → Except PyExc V)) (c : V → Except PyExc V) (e : PyExc)
    (hstyle : f.type_checking_style = TypeCheckStyle.check ∧ f.type_check arg = false
      ∨ f.type_checking_style = TypeCheckStyle.check_strict
        ∧ f.type_check_strict arg = false)
    (hco : f.coercers = cs1 ++ c :: cs2)
    (hpre : ∀ c1 ∈ cs1, ∃ s1, c1 arg = Except.error (PyExc.typeError s1))
    (hc : c arg = Except.error e) (hnot : isTypeError e = false) :
    fill f arg = ([FillingIntent.attempt_no_coerce, FillingIntent.attempt_coerce],
      Except.error e) := by
  have hfill := fill_eq_fillChecked_false f arg hstyle
  have hne : f.coercers ≠ [] := by rw [hco]; simp
  have hscan := coerceScan_abort cs1 c cs2 arg e hpre hc hnot
  rw [hfill, fillChecked_false_nonempty f arg hne, hco, hscan]

/-- Witness for C10: the second coercer raises a `ValueError`, which is
propagated immediately even though a third coercer that would succeed
remains untried. -/
theorem fill_non_typeError_aborts_scan_witness :
    fill (exFiller TypeCheckStyle.check tcFalse tcFalse
        [coTypeErr1, coValueErr, coOkDouble] []) 2
      = ([FillingIntent.attempt_no_coerce, FillingIntent.attempt_coerce],
         Except.error (PyExc.valueError "boom")) :=
  fill_non_typeError_aborts_scan
    (exFiller TypeCheckStyle.check tcFalse tcFalse
      [coTypeErr1, coValueErr, coOkDouble] []) 2
    [coTypeErr1] [coOkDouble] coValueErr (PyExc.valueError "boom")
    (Or.inl ⟨rfl, rfl⟩) rfl
    (fun c1 hc1 => by
      rw [List.mem_singleton] at hc1
      subst hc1
      exact ⟨"c1 cannot convert", rfl⟩)
    rfl rfl

/-- Helper: the checked branch of fill emits one of exactly three intent
traces. -/
theorem fillChecked_intents (f : AnnotatedFiller V) (arg : V) (b : Bool) :
    (fillChecked f arg b).1
        = [FillingIntent.attempt_no_coerce, FillingIntent.attempt_validation]
    ∨ (fillChecked f arg b).1
        = [FillingIntent.attempt_no_coerce, FillingIntent.attempt_coerce]
    ∨ (fillChecked f arg b).1
        = [FillingIntent.attempt_no_coerce, FillingIntent.attempt_coerce,
           FillingIntent.attempt_validation] := by
  cases b with
  | true => exact Or.inl rfl
  | false =>
      cases hc : f.coercers with
      | nil => right; left; simp [fillChecked, hc]
      | cons c rest =>
          cases hs : coerceScan (c :: rest) arg with
          | ok v => right; right; simp [fillChecked, hc, hs]
          | error e => right; left; simp [fillChecked, hc, hs]

/-- Helper: when the checked branch of fill returns a value, the last
intent it emitted was `attempt_validation`. -/
theorem fillChecked_ok_last (f : AnnotatedFiller V) (arg : V) (b : Bool) (v : V)
    (h : (fillChecked f arg b).2 = Except.ok v) :
    (fillChecked f arg b).1.getLast? = some FillingIntent.attempt_validation := by
  cases b with
  | true => rfl
  | false =>
      cases hc : f.coercers with
      | nil => simp [fillChecked, hc] at h
      | cons c rest =>
          cases hs : coerceScan (c :: rest) arg with
          | ok w => simp [fillChecked, hc, hs]
          | error e => simp [fillChecked, hc, hs] at h

/-- C3: for every filler and input, the intent trace of `fill` is a
prefix of `[attempt_no_coerce, attempt_coerce, attempt_validation]`
(with `attempt_coerce` possibly absent) or of
`[attempt_hollow, attempt_validation]`, listed here exhaustively; and
whenever `fill` returns a value, `attempt_validation` was emitted and
was the last intent. -/
theorem fill_intent_ordering (f : AnnotatedFiller V) (arg : V) :
    ((fill f arg).1 = []
      ∨ (fill f arg).1 = [FillingIntent.attempt_no_coerce]
      ∨ (fill f arg).1 = [FillingIntent.attempt_no_coerce, FillingIntent.attempt_coerce]
      ∨ (fill f arg).1 = [FillingIntent.attempt_no_coerce, FillingIntent.attempt_validation]
      ∨ (fill f arg).1 = [FillingIntent.attempt_no_coerce, FillingIntent.attempt_coerce,
          FillingIntent.attempt_validation]
      ∨ (fill f arg).1 = [FillingIntent.attempt_hollow]
      ∨ (fill f arg).1 = [FillingIntent.attempt_hollow, FillingIntent.attempt_validation])
    ∧ (∀ v : V, (fill f arg).2 = Except.ok v →
        (fill f arg).1.getLast? = some FillingIntent.attempt_validation) := by
  cases hst : f.type_checking_style with
  | default =>
      refine ⟨Or.inl ?_, fun v hv => ?_⟩
      · simp [fill, hst]
      · simp [fill, hst] at hv
  | hollow =>
      refine ⟨?_, fun v hv => ?_⟩
      · simp [fill, hst]
      · simp only [fill, hst]
        rfl
  | check =>
      have heq : fill f arg = fillChecked f arg (f.type_check arg) := by
        simp [fill, hst]
      refine ⟨?_, fun v hv => ?_⟩
      · rw [heq]
        rcases fillChecked_intents f arg (f.type_check arg) with h | h | h
        · exact Or.inr (Or.inr (Or.inr (Or.inl h)))
        · exact Or.inr (Or.inr (Or.inl h))
        · exact Or.inr (Or.inr (Or.inr (Or.inr (Or.inl h))))
      · rw [heq] at hv ⊢
        exact fillChecked_ok_last f arg (f.type_check arg) v hv
  | check_strict =>
      have heq : fill f arg = fillChecked f arg (f.type_check_strict arg) := by
        simp [fill, hst]
      refine ⟨?_, fun v hv => ?_⟩
      · rw [heq]
        rcases fillChecked_intents f arg (f.type_check_strict arg) with h | h | h
        · exact Or.inr (Or.inr (Or.inr (Or.inl h)))
        · exact Or.inr (Or.inr (Or.inl h))
        · exact Or.inr (Or.inr (Or.inr (Or.inr (Or.inl h))))
      · rw [heq] at hv ⊢
        exact fillChecked_ok_last f arg (f.type_check_strict arg) v hv

/-- Witness for C3: a concrete successful run ends with the
`attempt_validation` intent. -/
theorem fill_intent_ordering_witness :
    (fill (exFiller TypeCheckStyle.check tcTrue tcTrue [] []) 1).1.getLast?
      = some FillingIntent.attempt_validation :=
  (fill_intent_ordering (exFiller TypeCheckStyle.check tcTrue tcTrue [] []) 1).2 1 rfl

/-- Lifts a pure function into a validator or coercer that never
raises. -/
def pureLift (g : V → V) : V → Except PyExc V := fun x => Except.ok (g x)

/-- Helper: validators that never raise are applied as a left-to-right
fold over the value. -/
theorem runValidators_map_pureLift (gs : List (V → V)) (v : V) :
    runValidators (gs.map pureLift) v
      = Except.ok (gs.foldl (fun x g => g x) v) := by
  induction gs generalizing v with
  | nil => rfl
  | cons g gst ih =>
      simp only [List.map_cons, runValidators, pureLift, List.foldl]
      exact ih (g v)

/-- Helper: the first raising validator aborts the chain with its error;
validators after it never influence the result. -/
theorem runValidators_stops_at_error (pre : List (V → V)) (e : PyExc)
    (rest : List (V → Except PyExc V)) (v : V) :
    runValidators (pre.map pureLift ++ (fun _ => Except.error e) :: rest) v
      = Except.error e := by
  induction pre generalizing v with
  | nil => rfl
  | cons g gst ih =>
      simp only [List.map_cons, List.cons_append, runValidators, pureLift]
      exact ih (g v)

/-- Helper: whenever `fill` reaches the validation stage (emits the
`attempt_validation` intent), its result is the validator chain run on
the value reaching that stage. -/
theorem fill_validation_stage (f : AnnotatedFiller V) (arg : V)
    (h : FillingIntent.attempt_validation ∈ (fill f arg).1) :
    ∃ w, (fill f arg).2 = runValidators f.validators w := by
  cases hst : f.type_checking_style with
  | default => simp [fill, hst] at h
  | hollow => exact ⟨arg, by simp [fill, hst]⟩
  | check =>
      rw [show fill f arg = fillChecked f arg (f.type_check arg) from by simp [fill, hst]] at h ⊢
      cases b : f.type_check arg with
      | true => exact ⟨arg, by simp [fillChecked]⟩
      | false =>
          rw [b] at h
          cases hc : f.coercers with
          | nil => simp [fillChecked, hc] at h
          | cons c rest =>
              cases hs : coerceScan (c :: rest) arg with
              | ok w => exact ⟨w, by simp [fillChecked, hc, hs]⟩
              | error e => simp [fillChecked, hc, hs] at h
  | check_strict =>
      rw [show fill f arg = fillChecked f arg (f.type_check_strict arg) from by
        simp [fill, hst]] at h ⊢
      cases b : f.type_check_strict arg with
      | true => exact ⟨arg, by simp [fillChecked]⟩
      | false =>
          rw [b] at h
          cases hc : f.coercers with
          | nil => simp [fillChecked, hc] at h
          | cons c rest =>
              cases hs : coerceScan (c :: rest) arg with
              | ok w => exact ⟨w, by simp [fillChecked, hc, hs]⟩
              | error e => simp [fillChecked, hc, hs] at h

/-- C5: the validation stage applies the validators in declared order as
a left-to-right composition (never-raising validators fold the value
left to right); a raising validator aborts the chain with its error and
the validators after it never run; with zero validators the value passes
through unchanged; and whenever `fill` reaches the validation stage its
result is exactly this chain run on the value that reached it. -/
theorem validators_chain_in_order (v : V) (gs pre : List (V → V)) (e : PyExc)
    (rest : List (V → Except PyExc V)) :
    runValidators ([] : List (V → Except PyExc V)) v = Except.ok v
    ∧ runValidators (gs.map pureLift) v = Except.ok (gs.foldl (fun x g => g x) v)
    ∧ runValidators (pre.map pureLift ++ (fun _ => Except.error e) :: rest) v
        = Except.error e
    ∧ (∀ (f : AnnotatedFiller V) (arg : V),
        FillingIntent.attempt_validation ∈ (fill f arg).1 →
        ∃ w, (fill f arg).2 = runValidators f.validators w) :=
  ⟨rfl, runValidators_map_pureLift gs v, runValidators_stops_at_error pre e rest v,
    fun f arg h => fill_validation_stage f arg h⟩

/-- Witness for C5: a concrete hollow filler with one validator reaches
the validation stage and its result is the validator chain run. -/
theorem validators_chain_in_order_witness :
    ∃ w, (fill (exFiller TypeCheckStyle.hollow tcTrue tcTrue [] [vaAddOne]) 2).2
      = runValidators (exFiller TypeCheckStyle.hollow tcTrue tcTrue [] [vaAddOne]).validators
          w :=
  (validators_chain_in_order (V := Int) 0 [] [] PyExc.notImplemented []).2.2.2
    (exFiller TypeCheckStyle.hollow tcTrue tcTrue [] [vaAddOne]) 2 (by decide)

/-- C7: once every configuration token has been applied (state `f2`),
`bind` raises an error exactly when the resulting style is `default` or
the style is `hollow` with a non-empty coercer list; the two failures
raise the two configuration errors of the source, and otherwise `bind`
succeeds with the configured filler. -/
theorem bind_postconditions (f f2 : AnnotatedFiller V)
    (h : applyAll f f.args = Except.ok f2) :
    ((∃ e, bind f = Except.error e) ↔
      (f2.type_checking_style = TypeCheckStyle.default
        ∨ (f2.type_checking_style = TypeCheckStyle.hollow ∧ f2.coercers ≠ [])))
    ∧ (f2.type_checking_style = TypeCheckStyle.default →
        bind f = Except.error PyExc.notImplemented)
    ∧ (f2.type_checking_style = TypeCheckStyle.hollow → f2.coercers ≠ [] →
        bind f = Except.error
          (PyExc.valueError "cannot have hollow type checking with coercers"))
    ∧ (f2.type_checking_style ≠ TypeCheckStyle.default →
        ¬ (f2.type_checking_style = TypeCheckStyle.hollow ∧ f2.coercers ≠ []) →
        bind f = Except.ok f2) := by
  have hiff : (f2.coercers.isEmpty = false) ↔ f2.coercers ≠ [] := by
    cases f2.coercers <;> simp
  have hbind : bind f =
      (if f2.type_checking_style = TypeCheckStyle.default then
        Except.error PyExc.notImplemented
      else if f2.type_checking_style = TypeCheckStyle.hollow
          ∧ f2.coercers.isEmpty = false then
        Except.error (PyExc.valueError "cannot have hollow type checking with coercers")
      else Except.ok f2) := by
    unfold bind
    rw [h]
  refine ⟨⟨?_, ?_⟩, fun hd => ?_, fun hh hc => ?_, fun hd hnot => ?_⟩
  · rintro ⟨e, he⟩
    rw [hbind] at he
    by_cases hd : f2.type_checking_style = TypeCheckStyle.default
    · exact Or.inl hd
    · rw [if_neg hd] at he
      by_cases hh : f2.type_checking_style = TypeCheckStyle.hollow
          ∧ f2.coercers.isEmpty = false
      · exact Or.inr ⟨hh.1, hiff.mp hh.2⟩
      · rw [if_neg hh] at he
        cases he
  · intro hor
    rw [hbind]
    by_cases hd : f2.type_checking_style = TypeCheckStyle.default
    · rw [if_pos hd]
      exact ⟨_, rfl⟩
    · rcases hor with hor | ⟨hh, hc⟩
      · exact absurd hor hd
      · rw [if_neg hd, if_pos ⟨hh, hiff.mpr hc⟩]
        exact ⟨_, rfl⟩
  · rw [hbind, if_pos hd]
  · have hd : f2.type_checking_style ≠ TypeCheckStyle.default := by
      rw [hh]
      decide
    rw [hbind, if_neg hd, if_pos ⟨hh, hiff.mpr hc⟩]
  · rw [hbind, if_neg hd, if_neg (fun hx => hnot ⟨hx.1, hiff.mp hx.2⟩)]

/-- Concrete filler whose construction-time token list sets the style to
`check`, for exercising `bind`. -/
def exBindF : AnnotatedFiller Int :=
  { exFiller TypeCheckStyle.default tcTrue tcTrue [] [] with
      args := [Token.style TypeCheckStyle.check] }

/-- State of `exBindF` after its one style token has been applied. -/
def exBindF2 : AnnotatedFiller Int :=
  { exBindF with type_checking_style := TypeCheckStyle.check }

/-- Witness for C7: binding a filler whose tokens set style `check` with
no coercers succeeds. -/
theorem bind_postconditions_witness :
    bind exBindF = Except.ok exBindF2 :=
  (bind_postconditions exBindF exBindF2 rfl).2.2.2
    (fun hx => TypeCheckStyle.noConfusion hx)
    (fun hx => TypeCheckStyle.noConfusion hx.1)

/-- C9: a coercion token is accepted and its callable appended to the
coercers exactly when it is invokable, a validation token likewise for
the validators; a non-invokable token makes `apply` raise the
configuration `TypeError` naming the offending token. -/
theorem apply_token_resolution (f : AnnotatedFiller V)
    (ct : CoercionTok V) (vt : ValidationTok V) :
    (∀ c, ct.fn = some c →
      apply f (Token.coercion ct)
        = Except.ok { f with coercers := f.coercers ++ [c] })
    ∧ (ct.fn = none →
      apply f (Token.coercion ct) = Except.error (PyExc.typeError ct.name))
    ∧ (∀ w, vt.fn = some w →
      apply f (Token.validation vt)
        = Except.ok { f with validators := f.validators ++ [w] })
    ∧ (vt.fn = none →
      apply f (Token.validation vt) = Except.error (PyExc.typeError vt.name)) := by
  refine ⟨fun c hc => ?_, fun hc => ?_, fun w hw => ?_, fun hw => ?_⟩
  · simp [apply, get_coercer, hc]
  · simp [apply, get_coercer, hc]
  · simp [apply, get_validator, hw]
  · simp [apply, get_validator, hw]

/-- Witness for C9: applying a non-callable coercion token raises the
`TypeError` naming that token. -/
theorem apply_token_resolution_witness :
    apply (exFiller TypeCheckStyle.check tcTrue tcTrue [] [])
        (Token.coercion ⟨none, "badtoken"⟩)
      = Except.error (PyExc.typeError "badtoken") :=
  (apply_token_resolution (exFiller TypeCheckStyle.check tcTrue tcTrue [] [])
    ⟨none, "badtoken"⟩ ⟨none, "othertoken"⟩).2.1 rfl

end Records
